import Mathlib

/-!
Shallow embedding of the FlowCat goal/pomodoro state machine (src/main.py).

The embedding covers the state-machine core of the application: the goal
records and their update rules (`Goal.try_complete`, the crediting logic of
`Pomodoro.complete_session`), the pomodoro countdown (`Pomodoro.update_timer`,
the start/pause/skip/reset buttons), the goal store held on `FlowCatApp`
(`add_goal`, `update_goal`, `edit_goal`, `get_active_goal`,
`update_active_goal_data`, `get_goals` with the today filter), and the two
input screens (`NewGoalScreen` / `EditGoalScreen` save handlers).  UI
rendering, notification text and file persistence are out of scope; the
persisted dictionary `{goals, pomodoro_sessions}` is modelled by `AppData`.

Python integers are unbounded, so numeric fields are `Int`.  Python string
comparison (used for the ISO date range check `start <= today <= end`) is
lexicographic on code points and is modelled by `charsLe` on the underlying
character lists.  Python `int(...)` raising `ValueError` on non-numeric input
is modelled by `pyInt : String → Option Int`, which parses an optional sign
followed by decimal digits (surrounding whitespace and underscore separators,
which CPython would also accept, are not modelled; none of the claims depend
on them).
-/

namespace FlowCat

/-- Goal record, as stored in the `goals` list of the persisted data
dictionary.  Field `end_` models the JSON key `"end"` (a Lean keyword). -/
structure Goal where
  name : String
  difficulty : String
  levels : Int
  progress : Int
  pomodoros_per_level : Int
  current_pomodoros : Int
  start : String
  end_ : String
deriving DecidableEq, Repr

/-- Timer state of the `Pomodoro` widget: `working` is the phase flag
(`True` = Working, `False` = Break), `running` whether the countdown is
advancing, `minutes`/`seconds` the remaining time, `sessions` the count of
completed work sessions. -/
structure Pomodoro where
  working : Bool
  running : Bool
  minutes : Int
  seconds : Int
  sessions : Int
deriving DecidableEq, Repr

/-- Persisted data dictionary `{"goals": [...], "pomodoro_sessions": n}`. -/
structure AppData where
  goals : List Goal
  pomodoro_sessions : Int
deriving DecidableEq, Repr

/-- In-memory application state: the data dictionary plus the
`active_goal_index` reference (Python `None` or an index). -/
structure FlowCatApp where
  data : AppData
  active_goal_index : Option Nat
deriving DecidableEq, Repr

/-- Lexicographic comparison of character lists, modelling Python `<=` on
strings (code-point order). -/
def charsLe : List Char → List Char → Bool
  | [], _ => true
  | _ :: _, [] => false
  | a :: as, b :: bs => if a = b then charsLe as bs else decide (a < b)

/-- Python `s1 <= s2` on strings. -/
def pyStrLe (a b : String) : Bool :=
  charsLe a.data b.data

/-- Value of a nonempty list of decimal digits (accumulator form); `none` if
a non-digit character occurs. -/
def digitsVal : List Char → Nat → Option Nat
  | [], acc => some acc
  | c :: cs, acc =>
    if c.isDigit then digitsVal cs (acc * 10 + (c.toNat - 48)) else none

/-- Python `int(s)` on a trimmed decimal literal: optional sign followed by
at least one digit; `none` models the `ValueError` raised otherwise. -/
def pyInt (s : String) : Option Int :=
  match s.data with
  | [] => none
  | '-' :: [] => none
  | '-' :: c :: cs => (digitsVal (c :: cs) 0).map fun n => -(n : Int)
  | '+' :: [] => none
  | '+' :: c :: cs => (digitsVal (c :: cs) 0).map fun n => (n : Int)
  | cs => (digitsVal cs 0).map fun n => (n : Int)

/-- Source `Goal.try_complete` (src/main.py lines 66-74): the manual
"complete level" action.  If `progress < levels`, increment `progress` and
reset `current_pomodoros`; otherwise only a warning is shown ("all levels
complete") and the goal is unchanged. -/
def try_complete (g : Goal) : Goal :=
  if g.progress < g.levels then
    { g with progress := g.progress + 1, current_pomodoros := 0 }
  else
    g

/-- Crediting step applied to the active goal inside
`Pomodoro.complete_session` (src/main.py lines 144-152): increment
`current_pomodoros`; if it reaches `pomodoros_per_level`, advance `progress`
when below `levels`, and reset `current_pomodoros` to 0 in either case. -/
def credit_active_goal (g : Goal) : Goal :=
  let g1 := { g with current_pomodoros := g.current_pomodoros + 1 }
  if g1.current_pomodoros ≥ g1.pomodoros_per_level then
    if g1.progress < g1.levels then
      { g1 with progress := g1.progress + 1, current_pomodoros := 0 }
    else
      { g1 with current_pomodoros := 0 }
  else
    g1

/-- Source `FlowCatApp.get_active_goal` (lines 278-281): resolve
`active_goal_index` in the goals list (`none` when no goal is active). -/
def get_active_goal (app : FlowCatApp) : Option Goal :=
  match app.active_goal_index with
  | some i => app.data.goals[i]?
  | none => none

/-- Source `FlowCatApp.update_active_goal_data` (lines 283-287): write the
mutated goal back at `active_goal_index` and persist. -/
def update_active_goal_data (app : FlowCatApp) (g : Goal) : FlowCatApp :=
  match app.active_goal_index with
  | some i => { app with data := { app.data with goals := app.data.goals.set i g } }
  | none => app

/-- Source `Pomodoro.complete_session` (lines 132-164): on a Working-phase
completion, increment the session count and credit the active goal (if any);
then flip the phase, reset the countdown to the new phase's default
(25:00 work / 5:00 break), stop the timer, and persist the session count
through `update_sessions` (lines 299-301). -/
def complete_session (p : Pomodoro) (app : FlowCatApp) : Pomodoro × FlowCatApp :=
  let sessions := if p.working then p.sessions + 1 else p.sessions
  let app1 :=
    if p.working then
      match get_active_goal app with
      | some g => update_active_goal_data app (credit_active_goal g)
      | none => app
    else
      app
  let working := !p.working
  let minutes : Int := if working then 25 else 5
  let app2 := { app1 with data := { app1.data with pomodoro_sessions := sessions } }
  ({ working := working, running := false, minutes := minutes, seconds := 0,
     sessions := sessions }, app2)

/-- Source `Pomodoro.update_timer` (lines 112-122): one tick of the
once-per-second interval.  No-op unless running; at 0:00 the session
completes, otherwise the remaining time decreases by one second. -/
def update_timer (p : Pomodoro) (app : FlowCatApp) : Pomodoro × FlowCatApp :=
  if p.running then
    if p.seconds = 0 then
      if p.minutes = 0 then
        complete_session p app
      else
        ({ p with minutes := p.minutes - 1, seconds := 59 }, app)
    else
      ({ p with seconds := p.seconds - 1 }, app)
  else
    (p, app)

/-- Start button (line 168): sets `running`, phase and time unchanged. -/
def press_start (p : Pomodoro) : Pomodoro :=
  { p with running := true }

/-- Pause button (line 172): clears `running`, phase and time unchanged. -/
def press_pause (p : Pomodoro) : Pomodoro :=
  { p with running := false }

/-- Reset button (lines 176-179): stops the timer and restores 25:00.  The
phase flag `working` is not touched by the source. -/
def press_reset (p : Pomodoro) : Pomodoro :=
  { p with running := false, minutes := 25, seconds := 0 }

/-- Skip button (lines 174-175): completes the current session immediately. -/
def press_skip (p : Pomodoro) (app : FlowCatApp) : Pomodoro × FlowCatApp :=
  complete_session p app

/-- Source `FlowCatApp.add_goal` (lines 327-331): append the new goal. -/
def add_goal (app : FlowCatApp) (goal : Goal) : FlowCatApp :=
  { app with data := { app.data with goals := app.data.goals ++ [goal] } }

/-- Source `FlowCatApp.update_goal` (lines 304-307): replace the goal at
`index` (used by the manual complete-level callback). -/
def update_goal (app : FlowCatApp) (index : Nat) (g : Goal) : FlowCatApp :=
  { app with data := { app.data with goals := app.data.goals.set index g } }

/-- Source `FlowCatApp.edit_goal` (lines 309-318): delete the goal at
`index` (clearing `active_goal_index` when it equals `index`) or replace it
with the edited record. -/
def edit_goal (app : FlowCatApp) (index : Nat) (updated : Goal)
    (deleted : Bool) : FlowCatApp :=
  if deleted then
    { app with
      data := { app.data with goals := app.data.goals.eraseIdx index },
      active_goal_index :=
        if app.active_goal_index = some index then none
        else app.active_goal_index }
  else
    { app with data := { app.data with goals := app.data.goals.set index updated } }

/-- Date-range test of `FlowCatApp.get_goals` (line 293):
`goal["start"] <= today <= goal["end"]`. -/
def goal_matches_today (today : String) (g : Goal) : Bool :=
  pyStrLe g.start today && pyStrLe today g.end_

/-- Source `FlowCatApp.get_goals` with `today_only=True` (lines 289-297):
enumerate the goals in store order and keep the (index, goal) pairs whose
date range contains `today`. -/
def get_goals_today (app : FlowCatApp) (today : String) : List (Nat × Goal) :=
  app.data.goals.enum.filter fun p => goal_matches_today today p.2

/-- Source `NewGoalScreen.on_button_pressed` save branch (lines 384-403):
parse the level and pomodoro inputs (abort on `ValueError`), build the goal
with `progress = 0`, `current_pomodoros = 0` and date defaults, abort when
the name is empty, else append via `add_goal`.  `none` models the aborted
operation (no state mutated). -/
def new_goal_submit (app : FlowCatApp) (name difficulty levelsStr pomodorosStr
    startStr endStr today defaultEnd : String) : Option FlowCatApp :=
  match pyInt levelsStr, pyInt pomodorosStr with
  | some levels, some poms =>
    let goal : Goal :=
      { name := name, difficulty := difficulty, levels := levels,
        progress := 0, pomodoros_per_level := poms, current_pomodoros := 0,
        start := if startStr = "" then today else startStr,
        end_ := if endStr = "" then defaultEnd else endStr }
    if name = "" then none else some (add_goal app goal)
  | _, _ => none

/-- Source `EditGoalScreen.on_button_pressed` save branch (lines 431-450):
parse the inputs (abort on `ValueError`), keep `current_pomodoros` from the
old record, clamp `progress` to `min(progress, levels)`, abort when the name
is empty, else store via `edit_goal` with `deleted=False`. -/
def edit_goal_submit (app : FlowCatApp) (index : Nat) (old : Goal)
    (name difficulty levelsStr pomodorosStr startStr endStr : String) :
    Option FlowCatApp :=
  match pyInt levelsStr, pyInt pomodorosStr with
  | some levels, some poms =>
    let updated : Goal :=
      { name := name, difficulty := difficulty, levels := levels,
        progress := min old.progress levels,
        pomodoros_per_level := poms,
        current_pomodoros := old.current_pomodoros,
        start := startStr, end_ := endStr }
    if name = "" then none else some (edit_goal app index updated false)
  | _, _ => none

/-- Per-goal bounds invariant claimed by the spec:
`0 <= progress <= levels` and `0 <= currentPomodoros <= pomodorosPerLevel`. -/
def GoalInv (g : Goal) : Prop :=
  0 ≤ g.progress ∧ g.progress ≤ g.levels ∧
    0 ≤ g.current_pomodoros ∧ g.current_pomodoros ≤ g.pomodoros_per_level

instance (g : Goal) : Decidable (GoalInv g) := by
  unfold GoalInv
  exact inferInstance

/-- Store-wide version of `GoalInv`. -/
def StoreInv (app : FlowCatApp) : Prop :=
  ∀ g ∈ app.data.goals, GoalInv g

instance (app : FlowCatApp) : Decidable (StoreInv app) := by
  unfold StoreInv
  exact inferInstance

/-- Bounds on the remaining time of the countdown. -/
def TimerInv (p : Pomodoro) : Prop :=
  0 ≤ p.seconds ∧ p.seconds ≤ 59 ∧ 0 ≤ p.minutes ∧ p.minutes ≤ 25

instance (p : Pomodoro) : Decidable (TimerInv p) := by
  unfold TimerInv
  exact inferInstance

/-- User-visible timer transitions. -/
inductive TimerAction where
  | start
  | pause
  | tick
  | skip
  | reset
deriving DecidableEq

/-- One step of the timer state machine, acting on the timer together with
the application state (skip and tick can credit the active goal). -/
def timer_step : TimerAction → Pomodoro × FlowCatApp → Pomodoro × FlowCatApp
  | .start, (p, app) => (press_start p, app)
  | .pause, (p, app) => (press_pause p, app)
  | .tick, (p, app) => update_timer p app
  | .skip, (p, app) => press_skip p app
  | .reset, (p, app) => (press_reset p, app)

/-- Timer state at application start (`Pomodoro.__init__` plus the reactive
defaults, lines 76-86): Working phase, not running, 25:00, session count
loaded from the persisted data. -/
def init_timer (sessions : Int) : Pomodoro :=
  { working := true, running := false, minutes := 25, seconds := 0,
    sessions := sessions }

/-- States reachable from an application start by start/pause/tick/skip/reset. -/
inductive TimerReachable : Pomodoro × FlowCatApp → Prop where
  | init (app : FlowCatApp) :
      TimerReachable (init_timer app.data.pomodoro_sessions, app)
  | step (a : TimerAction) (s : Pomodoro × FlowCatApp) :
      TimerReachable s → TimerReachable (timer_step a s)

/-- Iterated ticks. -/
def ticksN : Nat → Pomodoro × FlowCatApp → Pomodoro × FlowCatApp
  | 0, s => s
  | n + 1, s => ticksN n (update_timer s.1 s.2)

/-- Application state with an empty store. -/
def app0 : FlowCatApp :=
  { data := { goals := [], pomodoro_sessions := 0 }, active_goal_index := none }

/-- Sample goal of spec Scenario 1. -/
def readGoal : Goal :=
  { name := "Read", difficulty := "Easy", levels := 3, progress := 0,
    pomodoros_per_level := 2, current_pomodoros := 0,
    start := "2024-01-01", end_ := "2024-12-31" }

/-- Timer immediately after pressing start in the initial state. -/
def tickStart : Pomodoro :=
  { working := true, running := true, minutes := 25, seconds := 0, sessions := 0 }

theorem ticksN_add (m n : Nat) (s : Pomodoro × FlowCatApp) :
    ticksN (m + n) s = ticksN m (ticksN n s) := by
  induction n generalizing s with
  | zero => rfl
  | succ k ih =>
    show ticksN (m + k) (update_timer s.1 s.2) = _
    rw [ih]
    rfl

/-- Store holding only `readGoal`, with it set active. -/
def appRead : FlowCatApp :=
  { data := { goals := [readGoal], pomodoro_sessions := 0 },
    active_goal_index := some 0 }

/-- Timer paused mid-break. -/
def breakTimer : Pomodoro :=
  { working := false, running := true, minutes := 3, seconds := 12, sessions := 0 }

/-- Sample goal with all levels complete. -/
def doneGoal : Goal :=
  { readGoal with progress := 3 }

/-- C2: applying a WorkSessionCompleted event while a goal is active
increments its `currentPomodoros`; on reaching `pomodorosPerLevel` the
counter resets to 0 and `progress` advances exactly when `progress < levels`
(surplus pomodoros are discarded and progress never passes `levels`); from
`progress=0, currentPomodoros=0, levels=3, pomodorosPerLevel=2`, two events
yield `currentPomodoros=0, progress=1`. -/
theorem C2_work_session_credit :
    (∀ (p : Pomodoro) (app : FlowCatApp) (g : Goal),
        p.working = true → get_active_goal app = some g →
        get_active_goal (complete_session p app).2 = some (credit_active_goal g)) ∧
    (∀ g : Goal, g.current_pomodoros + 1 < g.pomodoros_per_level →
        credit_active_goal g = { g with current_pomodoros := g.current_pomodoros + 1 }) ∧
    (∀ g : Goal, g.pomodoros_per_level ≤ g.current_pomodoros + 1 →
        g.progress < g.levels →
        credit_active_goal g =
          { g with progress := g.progress + 1, current_pomodoros := 0 }) ∧
    (∀ g : Goal, g.pomodoros_per_level ≤ g.current_pomodoros + 1 →
        ¬ g.progress < g.levels →
        credit_active_goal g = { g with current_pomodoros := 0 }) ∧
    (∀ g : Goal, g.progress ≤ g.levels →
        (credit_active_goal g).progress ≤ g.levels) ∧
    credit_active_goal (credit_active_goal readGoal) =
      { readGoal with progress := 1, current_pomodoros := 0 } := by
  refine ⟨fun p app g hw hg => ?_, fun g h => ?_, fun g h1 h2 => ?_,
    fun g h1 h2 => ?_, fun g h => ?_, by decide⟩
  · cases hidx : app.active_goal_index with
    | none =>
      unfold get_active_goal at hg
      rw [hidx] at hg
      cases hg
    | some i =>
      have hg' : app.data.goals[i]? = some g := by
        unfold get_active_goal at hg
        rwa [hidx] at hg
      have hlen : i < app.data.goals.length := by
        rcases List.getElem?_eq_some.mp hg' with ⟨h, _⟩
        exact h
      unfold complete_session
      rw [hw, hg]
      unfold update_active_goal_data
      rw [hidx]
      unfold get_active_goal
      simp only [hidx]
      exact List.getElem?_set_eq_of_lt (credit_active_goal g) hlen
  · simp only [credit_active_goal]
    split
    · next hcond =>
      simp at hcond
      omega
    · rfl
  · simp only [credit_active_goal]
    split
    · rfl
    · next hcond =>
      simp at hcond
      omega
  · simp only [credit_active_goal]
    split
    · rfl
    · next hcond =>
      simp at hcond
      omega
  · simp only [credit_active_goal]
    split
    · split
      · simp
        omega
      · simp
        omega
    · simp
      omega

/-- C2 witness: the credit rules evaluated at concrete goals. -/
theorem C2_work_session_credit_witness :
    get_active_goal (complete_session tickStart appRead).2 =
      some (credit_active_goal readGoal) ∧
    credit_active_goal { readGoal with pomodoros_per_level := 4 } =
      { readGoal with pomodoros_per_level := 4, current_pomodoros := 1 } ∧
    credit_active_goal { readGoal with current_pomodoros := 1 } =
      { readGoal with progress := 1, current_pomodoros := 0 } ∧
    credit_active_goal { doneGoal with current_pomodoros := 1 } =
      { doneGoal with current_pomodoros := 0 } ∧
    (credit_active_goal readGoal).progress ≤ readGoal.levels :=
  ⟨C2_work_session_credit.1 tickStart appRead readGoal rfl (by decide),
   by
     have h := C2_work_session_credit.2.1
       { readGoal with pomodoros_per_level := 4 } (by decide)
     exact h,
   by
     have h := C2_work_session_credit.2.2.1
       { readGoal with current_pomodoros := 1 } (by decide) (by decide)
     exact h,
   by
     have h := C2_work_session_credit.2.2.2.1
       { doneGoal with current_pomodoros := 1 } (by decide) (by decide)
     exact h,
   C2_work_session_credit.2.2.2.2.1 readGoal (by decide)⟩

/-- C5 counterexample: pressing reset while in the Break phase does not
restore the Working phase — `working` stays `false`, refuting "reset leaves
the timer in the Idle-Working state" for Break-phase states. -/
theorem C5_counterexample :
    press_reset breakTimer =
      { working := false, running := false, minutes := 25, seconds := 0,
        sessions := 0 } ∧
    (press_reset breakTimer).working ≠ true := by
  decide

/-- C5 (amended): from every timer state, reset stops the timer and restores
`remaining = 25:00`, but leaves the phase flag and the session count
unchanged (a Break phase stays Break). -/
theorem C5_reset_behavior (p : Pomodoro) :
    (press_reset p).running = false ∧ (press_reset p).minutes = 25 ∧
    (press_reset p).seconds = 0 ∧ (press_reset p).working = p.working ∧
    (press_reset p).sessions = p.sessions :=
  ⟨rfl, rfl, rfl, rfl, rfl⟩

/-- C7: manual level completion advances `progress` and resets
`currentPomodoros` while `progress < levels`; once `progress = levels` it is
a no-op (idempotent, never an error). -/
theorem C7_complete_level_idempotent :
    (∀ g : Goal, g.progress < g.levels →
        try_complete g =
          { g with progress := g.progress + 1, current_pomodoros := 0 }) ∧
    (∀ g : Goal, g.progress = g.levels → try_complete g = g) ∧
    (∀ g : Goal, g.progress = g.levels →
        try_complete (try_complete g) = try_complete g) := by
  have hnoop : ∀ g : Goal, g.progress = g.levels → try_complete g = g := by
    intro g h
    unfold try_complete
    rw [if_neg (by omega)]
  refine ⟨fun g h => ?_, hnoop, fun g h => ?_⟩
  · unfold try_complete
    rw [if_pos h]
  · rw [hnoop g h, hnoop g h]

/-- C7 witness: the three clauses evaluated at concrete goals. -/
theorem C7_complete_level_idempotent_witness :
    try_complete readGoal =
      { readGoal with progress := readGoal.progress + 1, current_pomodoros := 0 } ∧
    try_complete doneGoal = doneGoal ∧
    try_complete (try_complete doneGoal) = try_complete doneGoal :=
  ⟨C7_complete_level_idempotent.1 readGoal (by decide),
   C7_complete_level_idempotent.2.1 doneGoal (by decide),
   C7_complete_level_idempotent.2.2 doneGoal (by decide)⟩

/-- C9: completing a Break phase touches no goal and no session count — the
goals list, the active-goal reference and the timer's session counter are
unchanged; only the phase flips to Working with `remaining = 25:00` and
`running = false` (the persisted session count is rewritten to the timer's
unchanged value). -/
theorem C9_break_completion_frame (p : Pomodoro) (app : FlowCatApp)
    (hw : p.working = false) :
    (complete_session p app).1 =
      { working := true, running := false, minutes := 25, seconds := 0,
        sessions := p.sessions } ∧
    (complete_session p app).2.data.goals = app.data.goals ∧
    (complete_session p app).2.active_goal_index = app.active_goal_index ∧
    (complete_session p app).2.data.pomodoro_sessions = p.sessions := by
  unfold complete_session
  rw [hw]
  simp

/-- Running Working-phase timer at `m` minutes sharp. -/
def runTimer (m : Int) : Pomodoro :=
  { working := true, running := true, minutes := m, seconds := 0, sessions := 0 }

set_option maxRecDepth 8000 in
/-- Concrete 300-tick segments of the 25:00 countdown. -/
theorem ticks_segments :
    ticksN 300 (tickStart, app0) = (runTimer 20, app0) ∧
    ticksN 300 (runTimer 20, app0) = (runTimer 15, app0) ∧
    ticksN 300 (runTimer 15, app0) = (runTimer 10, app0) ∧
    ticksN 300 (runTimer 10, app0) = (runTimer 5, app0) ∧
    ticksN 300 (runTimer 5, app0) = (runTimer 0, app0) := by
  refine ⟨by decide, by decide, by decide, by decide, by decide⟩

/-- Evaluation of the 1500th-tick state of the started 25:00 countdown:
still Working, still running, showing 0:00, no session counted. -/
theorem ticks1500_eq : ticksN 1500 (tickStart, app0) = (runTimer 0, app0) := by
  obtain ⟨e1, e2, e3, e4, e5⟩ := ticks_segments
  rw [show (1500 : Nat) = 1200 + 300 from rfl, ticksN_add, e1,
    show (1200 : Nat) = 900 + 300 from rfl, ticksN_add, e2,
    show (900 : Nat) = 600 + 300 from rfl, ticksN_add, e3,
    show (600 : Nat) = 300 + 300 from rfl, ticksN_add, e4, e5]

/-- C3 counterexample: after `start` and exactly 1500 ticks from 25:00 the
timer is still in the Working phase, still running, at 0:00, and no
WorkSessionCompleted has been produced (session count still 0) — refuting
"1500 ticks produce exactly one WorkSessionCompleted, phase Break,
remaining 5:00, running false". -/
theorem C3_counterexample :
    (ticksN 1500 (tickStart, app0)).1.working = true ∧
    (ticksN 1500 (tickStart, app0)).1.running = true ∧
    (ticksN 1500 (tickStart, app0)).1.minutes = 0 ∧
    (ticksN 1500 (tickStart, app0)).1.seconds = 0 ∧
    (ticksN 1500 (tickStart, app0)).1.sessions = 0 ∧
    (ticksN 1500 (tickStart, app0)).2.data.pomodoro_sessions = 0 := by
  rw [ticks1500_eq]
  decide

/-- C3 (amended): the tick that fires while the display already shows 0:00
is the one that completes the phase, so the started 25:00 Working countdown
needs 1501 ticks (not 1500) to produce exactly one WorkSessionCompleted,
after which the phase is Break, `remaining = 5:00` and `running = false`;
each tick while running with time left decrements remaining by one second. -/
theorem C3_timer_completion :
    ticksN 1500 (tickStart, app0) = (runTimer 0, app0) ∧
    ticksN 1501 (tickStart, app0) =
      ({ working := false, running := false, minutes := 5, seconds := 0,
         sessions := 1 },
       { data := { goals := [], pomodoro_sessions := 1 },
         active_goal_index := none }) ∧
    (∀ (p : Pomodoro) (app : FlowCatApp), p.running = true → p.seconds ≠ 0 →
        update_timer p app = ({ p with seconds := p.seconds - 1 }, app)) ∧
    (∀ (p : Pomodoro) (app : FlowCatApp), p.running = true → p.seconds = 0 →
        p.minutes ≠ 0 →
        update_timer p app =
          ({ p with minutes := p.minutes - 1, seconds := 59 }, app)) ∧
    (∀ (p : Pomodoro) (app : FlowCatApp), p.running = true → p.seconds = 0 →
        p.minutes = 0 → update_timer p app = complete_session p app) ∧
    (∀ (p : Pomodoro) (app : FlowCatApp), p.running = false →
        update_timer p app = (p, app)) := by
  refine ⟨ticks1500_eq, ?_, fun p app hr hs => ?_, fun p app hr hs hm => ?_,
    fun p app hr hs hm => ?_, fun p app hr => ?_⟩
  · rw [show (1501 : Nat) = 1 + 1500 from rfl, ticksN_add, ticks1500_eq]
    decide
  · unfold update_timer
    rw [hr, if_pos rfl, if_neg hs]
  · unfold update_timer
    rw [hr, if_pos rfl, if_pos hs, if_neg hm]
  · unfold update_timer
    rw [hr, if_pos rfl, if_pos hs, if_pos hm]
  · unfold update_timer
    rw [hr]
    simp

/-- C3 witness: the tick rules evaluated at concrete timer states. -/
theorem C3_timer_completion_witness :
    update_timer breakTimer app0 =
      ({ breakTimer with seconds := breakTimer.seconds - 1 }, app0) ∧
    update_timer (runTimer 20) app0 =
      ({ runTimer 20 with minutes := (runTimer 20).minutes - 1, seconds := 59 },
       app0) ∧
    update_timer (runTimer 0) app0 = complete_session (runTimer 0) app0 ∧
    update_timer (init_timer 0) app0 = (init_timer 0, app0) :=
  ⟨C3_timer_completion.2.2.1 breakTimer app0 rfl (by decide),
   C3_timer_completion.2.2.2.1 (runTimer 20) app0 rfl rfl (by decide),
   C3_timer_completion.2.2.2.2.1 (runTimer 0) app0 rfl rfl rfl,
   C3_timer_completion.2.2.2.2.2 (init_timer 0) app0 rfl⟩

/-- Three distinct sample goals. -/
def goalA : Goal := { readGoal with name := "A" }

/-- Second sample goal. -/
def goalB : Goal := { readGoal with name := "B" }

/-- Third sample goal. -/
def goalC : Goal := { readGoal with name := "C" }

/-- Store with goals A, B, C and B (index 1) active. -/
def appABC : FlowCatApp :=
  { data := { goals := [goalA, goalB, goalC], pomodoro_sessions := 0 },
    active_goal_index := some 1 }

/-- C4 counterexample: with goals [A, B, C] and B active (index 1),
deleting goal A (index 0) leaves `activeGoalIndex = 1`, which now resolves
to C — the active goal's identity is not preserved, refuting "deleting any
other goal leaves the active goal's identity unchanged". -/
theorem C4_counterexample :
    get_active_goal appABC = some goalB ∧
    get_active_goal (edit_goal appABC 0 goalA true) = some goalC ∧
    goalB ≠ goalC := by
  decide

/-- C4 (amended): deleting the goal at `activeGoalIndex` clears the index to
none; deleting any other goal leaves the index value unchanged (it is never
re-resolved), so deleting a goal at a larger index preserves the active
goal's identity, while deleting one at a smaller index shifts which record
the stale index resolves to (as the counterexample shows). -/
theorem C4_delete_active_reference :
    (∀ (app : FlowCatApp) (i : Nat) (g : Goal),
        app.active_goal_index = some i →
        (edit_goal app i g true).active_goal_index = none) ∧
    (∀ (app : FlowCatApp) (i j : Nat) (g : Goal),
        app.active_goal_index = some i → j ≠ i →
        (edit_goal app j g true).active_goal_index = some i) ∧
    (∀ (app : FlowCatApp) (i j : Nat) (g : Goal),
        app.active_goal_index = some i → i < j →
        get_active_goal (edit_goal app j g true) = get_active_goal app) := by
  have hkeep : ∀ (app : FlowCatApp) (i j : Nat) (g : Goal),
      app.active_goal_index = some i → j ≠ i →
      (edit_goal app j g true).active_goal_index = some i := by
    intro app i j g h hj
    unfold edit_goal
    rw [h]
    simp [Ne.symm hj]
  refine ⟨fun app i g h => ?_, hkeep, fun app i j g h hij => ?_⟩
  · unfold edit_goal
    rw [h]
    simp
  · have h2 := hkeep app i j g h (by omega)
    unfold get_active_goal
    rw [h2, h]
    show (app.data.goals.eraseIdx j)[i]? = app.data.goals[i]?
    exact List.getElem?_eraseIdx_of_lt app.data.goals j i hij

/-- C4 witness: the delete rules evaluated on the concrete [A, B, C] store. -/
theorem C4_delete_active_reference_witness :
    (edit_goal appABC 1 goalB true).active_goal_index = none ∧
    (edit_goal appABC 0 goalA true).active_goal_index = some 1 ∧
    get_active_goal (edit_goal appABC 2 goalC true) = get_active_goal appABC :=
  ⟨C4_delete_active_reference.1 appABC 1 goalB rfl,
   C4_delete_active_reference.2.1 appABC 1 0 goalA rfl (by decide),
   C4_delete_active_reference.2.2 appABC 1 2 goalC rfl (by decide)⟩

/-- C8: for every store and date, the today query yields exactly the
(index, goal) pairs whose inclusive date range contains the date, and the
result is a sublist of the enumerated store (store order, no other
sorting). -/
theorem C8_query_today (app : FlowCatApp) (today : String) :
    (∀ (i : Nat) (g : Goal),
        (i, g) ∈ get_goals_today app today ↔
          app.data.goals[i]? = some g ∧ pyStrLe g.start today = true ∧
            pyStrLe today g.end_ = true) ∧
    (get_goals_today app today).Sublist app.data.goals.enum := by
  constructor
  · intro i g
    unfold get_goals_today goal_matches_today
    rw [List.mem_filter, List.mem_enum_iff_getElem?]
    simp [and_assoc]
  · exact List.filter_sublist _

/-- C9 witness: break completion evaluated on a concrete mid-break state. -/
theorem C9_break_completion_frame_witness :
    (complete_session breakTimer app0).1 =
      { working := true, running := false, minutes := 25, seconds := 0,
        sessions := breakTimer.sessions } ∧
    (complete_session breakTimer app0).2.data.goals = app0.data.goals ∧
    (complete_session breakTimer app0).2.active_goal_index =
      app0.active_goal_index ∧
    (complete_session breakTimer app0).2.data.pomodoro_sessions =
      breakTimer.sessions :=
  C9_break_completion_frame breakTimer app0 rfl

/-- Manual level completion preserves the per-goal bounds. -/
theorem GoalInv_try_complete (g : Goal) (h : GoalInv g) :
    GoalInv (try_complete g) := by
  obtain ⟨h1, h2, h3, h4⟩ := h
  simp only [GoalInv, try_complete]
  split
  all_goals try simp
  all_goals omega

/-- Work-session crediting preserves the per-goal bounds. -/
theorem GoalInv_credit (g : Goal) (h : GoalInv g) :
    GoalInv (credit_active_goal g) := by
  obtain ⟨h1, h2, h3, h4⟩ := h
  simp only [GoalInv, credit_active_goal]
  split
  all_goals try split
  all_goals try simp
  all_goals omega

/-- Goal with `current_pomodoros = 3` under a 4-pomodoro cycle. -/
def wideGoal : Goal :=
  { readGoal with levels := 5, progress := 2, pomodoros_per_level := 4, current_pomodoros := 3 }

/-- Store holding only `wideGoal`. -/
def appWide : FlowCatApp :=
  { data := { goals := [wideGoal], pomodoro_sessions := 0 },
    active_goal_index := none }

/-- Record produced by editing `wideGoal`, shrinking the pomodoro cycle to 2. -/
def wideGoalEdited : Goal :=
  { name := "Read", difficulty := "Easy", levels := 5, progress := 2,
    pomodoros_per_level := 2, current_pomodoros := 3,
    start := "2024-01-01", end_ := "2024-12-31" }

/-- C1 counterexample: `wideGoal` satisfies the invariant, but the edit that
shrinks `pomodorosPerLevel` from 4 to 2 keeps `currentPomodoros = 3`
unchanged, so after the edit `currentPomodoros > pomodorosPerLevel` — the
claimed invariant does not hold after every edit. -/
theorem C1_counterexample :
    GoalInv wideGoal ∧ StoreInv appWide ∧
    edit_goal_submit appWide 0 wideGoal "Read" "Easy" "5" "2" "2024-01-01"
        "2024-12-31" =
      some { data := { goals := [wideGoalEdited], pomodoro_sessions := 0 },
             active_goal_index := none } ∧
    wideGoalEdited.pomodoros_per_level < wideGoalEdited.current_pomodoros ∧
    ¬ StoreInv { data := { goals := [wideGoalEdited], pomodoro_sessions := 0 },
                 active_goal_index := none } := by
  decide

/-- C1 (amended): `0 <= progress <= levels` and
`0 <= currentPomodoros <= pomodorosPerLevel` are preserved by goal creation
(given nonnegative parsed levels and pomodoro counts), manual level
completion, work-session crediting and deletion; an edit clamps `progress`
into the new `[0, levels]` range but keeps `currentPomodoros` unchanged, so
it preserves the invariant only when the old `currentPomodoros` fits the new
`pomodorosPerLevel` (the counterexample shows a shrinking edit violating the
bound). -/
theorem C1_invariant_preservation :
    (∀ (app : FlowCatApp) (goal : Goal), StoreInv app → GoalInv goal →
        StoreInv (add_goal app goal)) ∧
    (∀ (app app2 : FlowCatApp) (nm df ls ps ss es td de : String)
        (levels poms : Int), StoreInv app → pyInt ls = some levels →
        pyInt ps = some poms → 0 ≤ levels → 0 ≤ poms →
        new_goal_submit app nm df ls ps ss es td de = some app2 →
        StoreInv app2) ∧
    (∀ (app : FlowCatApp) (i : Nat) (g : Goal), StoreInv app →
        app.data.goals[i]? = some g →
        StoreInv (update_goal app i (try_complete g))) ∧
    (∀ (p : Pomodoro) (app : FlowCatApp), StoreInv app →
        StoreInv (complete_session p app).2) ∧
    (∀ (app : FlowCatApp) (i : Nat) (g : Goal), StoreInv app →
        StoreInv (edit_goal app i g true)) ∧
    (∀ (app app2 : FlowCatApp) (i : Nat) (old : Goal)
        (nm df ls ps ss es : String) (levels poms : Int), StoreInv app →
        pyInt ls = some levels → pyInt ps = some poms → 0 ≤ levels →
        0 ≤ poms → 0 ≤ old.progress → 0 ≤ old.current_pomodoros →
        old.current_pomodoros ≤ poms →
        edit_goal_submit app i old nm df ls ps ss es = some app2 →
        StoreInv app2) := by
  have hadd : ∀ (app : FlowCatApp) (goal : Goal), StoreInv app →
      GoalInv goal → StoreInv (add_goal app goal) := by
    intro app goal hs hg g hmem
    simp only [add_goal, List.mem_append, List.mem_singleton] at hmem
    rcases hmem with hmem | rfl
    · exact hs g hmem
    · exact hg
  have hset : ∀ (app : FlowCatApp) (i : Nat) (x : Goal), StoreInv app →
      GoalInv x →
      StoreInv { app with
        data := { app.data with goals := app.data.goals.set i x } } := by
    intro app i x hs hx g hmem
    simp only at hmem
    rcases List.mem_or_eq_of_mem_set hmem with hmem | rfl
    · exact hs g hmem
    · exact hx
  refine ⟨hadd, ?_, ?_, ?_, ?_, ?_⟩
  · intro app app2 nm df ls ps ss es td de levels poms hs hls hps hl hp hsub
    simp only [new_goal_submit, hls, hps] at hsub
    by_cases hn : nm = ""
    · rw [if_pos hn] at hsub
      cases hsub
    · rw [if_neg hn] at hsub
      injection hsub with hsub
      rw [← hsub]
      refine hadd app _ hs ?_
      exact ⟨le_refl 0, hl, le_refl 0, hp⟩
  · intro app i g hs hg
    exact hset app i (try_complete g) hs
      (GoalInv_try_complete g (hs g (List.getElem?_mem hg)))
  · intro p app hs
    unfold complete_session
    by_cases hw : p.working
    · rw [hw]
      simp only [if_pos rfl]
      cases hga : get_active_goal app with
      | none =>
        intro g hmem
        exact hs g hmem
      | some g =>
        cases hidx : app.active_goal_index with
        | none =>
          unfold get_active_goal at hga
          rw [hidx] at hga
          cases hga
        | some i =>
          have hg : app.data.goals[i]? = some g := by
            unfold get_active_goal at hga
            rwa [hidx] at hga
          unfold update_active_goal_data
          rw [hidx]
          intro g' hmem
          simp only at hmem
          rcases List.mem_or_eq_of_mem_set hmem with hmem | rfl
          · exact hs g' hmem
          · exact GoalInv_credit g (hs g (List.getElem?_mem hg))
    · rw [Bool.not_eq_true] at hw
      rw [hw]
      simp only [Bool.false_eq_true, if_neg (by simp : ¬ False)]
      intro g hmem
      exact hs g hmem
  · intro app i g hs g' hmem
    unfold edit_goal at hmem
    simp only [if_pos rfl] at hmem
    exact hs g' ((List.eraseIdx_sublist app.data.goals i).mem hmem)
  · intro app app2 i old nm df ls ps ss es levels poms hs hls hps hl hp
      hprog hcp hcpb hsub
    simp only [edit_goal_submit, hls, hps] at hsub
    by_cases hn : nm = ""
    · rw [if_pos hn] at hsub
      cases hsub
    · rw [if_neg hn] at hsub
      injection hsub with hsub
      rw [← hsub]
      unfold edit_goal
      simp only [if_neg (by simp : ¬ (false = true))]
      refine hset app i _ hs ?_
      refine ⟨le_min hprog hl, min_le_right _ _, hcp, hcpb⟩

/-- C1 witness: the preservation clauses evaluated on concrete stores. -/
theorem C1_invariant_preservation_witness :
    StoreInv (add_goal appRead readGoal) ∧
    StoreInv (update_goal appRead 0 (try_complete readGoal)) ∧
    StoreInv (complete_session tickStart appRead).2 ∧
    StoreInv (edit_goal appRead 0 readGoal true) := by
  refine ⟨C1_invariant_preservation.1 appRead readGoal (by decide) (by decide),
    C1_invariant_preservation.2.2.1 appRead 0 readGoal (by decide) (by decide),
    C1_invariant_preservation.2.2.2.1 tickStart appRead (by decide),
    C1_invariant_preservation.2.2.2.2.1 appRead 0 readGoal (by decide)⟩

/-- Phase completion always restores one of the two default countdowns. -/
theorem TimerInv_complete_session (p : Pomodoro) (app : FlowCatApp) :
    TimerInv (complete_session p app).1 := by
  unfold complete_session TimerInv
  by_cases hw : p.working <;> simp [hw]

/-- C10: in every timer state reachable from the application start by
start/pause/tick/skip/reset, the remaining time satisfies
`0 <= seconds <= 59` and `0 <= minutes <= 25`; a tick that fires at exactly
0:00 triggers phase completion instead of decrementing, so the remaining
time never goes negative. -/
theorem C10_timer_bounds :
    (∀ s : Pomodoro × FlowCatApp, TimerReachable s → TimerInv s.1) ∧
    (∀ (p : Pomodoro) (app : FlowCatApp), p.running = true → p.minutes = 0 →
        p.seconds = 0 → update_timer p app = complete_session p app) := by
  constructor
  · intro s hs
    induction hs with
    | init app =>
      exact ⟨by show (0:Int) ≤ 0; norm_num, by show (0:Int) ≤ 59; norm_num,
        by show (0:Int) ≤ 25; norm_num, by show (25:Int) ≤ 25; norm_num⟩
    | step a s hs ih =>
      obtain ⟨p, app⟩ := s
      have ihp : TimerInv p := ih
      obtain ⟨i1, i2, i3, i4⟩ := ihp
      cases a with
      | start => exact ⟨i1, i2, i3, i4⟩
      | pause => exact ⟨i1, i2, i3, i4⟩
      | reset =>
        exact ⟨by show (0:Int) ≤ 0; norm_num, by show (0:Int) ≤ 59; norm_num,
          by show (0:Int) ≤ 25; norm_num, by show (25:Int) ≤ 25; norm_num⟩
      | skip => exact TimerInv_complete_session p app
      | tick =>
        show TimerInv (update_timer p app).1
        unfold update_timer
        by_cases hr : p.running = true
        · rw [if_pos hr]
          by_cases hs0 : p.seconds = 0
          · rw [if_pos hs0]
            by_cases hm0 : p.minutes = 0
            · rw [if_pos hm0]
              exact TimerInv_complete_session p app
            · rw [if_neg hm0]
              refine ⟨?_, ?_, ?_, ?_⟩
              · show (0:Int) ≤ 59
                norm_num
              · show (59:Int) ≤ 59
                norm_num
              · show 0 ≤ p.minutes - 1
                omega
              · show p.minutes - 1 ≤ 25
                omega
          · rw [if_neg hs0]
            refine ⟨?_, ?_, ?_, ?_⟩
            · show 0 ≤ p.seconds - 1
              omega
            · show p.seconds - 1 ≤ 59
              omega
            · show 0 ≤ p.minutes
              omega
            · show p.minutes ≤ 25
              omega
        · rw [if_neg hr]
          exact ⟨i1, i2, i3, i4⟩
  · intro p app hr hm hs
    unfold update_timer
    rw [hr, if_pos rfl, if_pos hs, if_pos hm]

/-- C10 witness: the bounds at a concrete reachable state, and the
completion-at-zero rule at a concrete 0:00 state. -/
theorem C10_timer_bounds_witness :
    TimerInv (init_timer app0.data.pomodoro_sessions) ∧
    update_timer (runTimer 0) appRead = complete_session (runTimer 0) appRead :=
  ⟨C10_timer_bounds.1 (init_timer app0.data.pomodoro_sessions, app0)
      (TimerReachable.init app0),
   C10_timer_bounds.2 (runTimer 0) appRead rfl rfl rfl⟩

/-- Goal record created by submitting levels "0" and pomodoros "-3". -/
def zeroGoal : Goal :=
  { name := "X", difficulty := "Easy", levels := 0, progress := 0,
    pomodoros_per_level := -3, current_pomodoros := 0,
    start := "2024-01-01", end_ := "2024-12-31" }

/-- Goal record created by submitting levels "5" and pomodoros "4". -/
def goalX : Goal :=
  { name := "X", difficulty := "Easy", levels := 5, progress := 0,
    pomodoros_per_level := 4, current_pomodoros := 0,
    start := "2024-01-01", end_ := "2024-12-31" }

/-- C6 counterexample: submitting a new goal with levels "0" and pomodoro
count "-3" succeeds and appends the goal — the creation is not rejected even
though neither value is a positive integer, refuting "fails whenever the
submitted levels or pomodorosPerLevel values are not positive integers". -/
theorem C6_counterexample :
    new_goal_submit app0 "X" "Easy" "0" "-3" "2024-01-01" "2024-12-31" "t" "d" =
      some { data := { goals := [zeroGoal], pomodoro_sessions := 0 },
             active_goal_index := none } ∧
    ¬ 0 < zeroGoal.levels ∧ ¬ 0 < zeroGoal.pomodoros_per_level := by
  decide

/-- C6 (amended): goal creation fails — mutating no state — exactly when the
submitted name is empty or the levels or pomodoros input is not numeric
(`int()` raises); positivity is not validated, so zero or negative parsed
values are accepted; on success the new goal (with `progress = 0` and
`currentPomodoros = 0`) is appended to the end of the sequence and the
active-goal reference is untouched. -/
theorem C6_create_validation :
    (∀ (app : FlowCatApp) (nm df ls ps ss es td de : String),
        new_goal_submit app nm df ls ps ss es td de = none ↔
          pyInt ls = none ∨ pyInt ps = none ∨ nm = "") ∧
    (∀ (app app2 : FlowCatApp) (nm df ls ps ss es td de : String)
        (levels poms : Int), pyInt ls = some levels → pyInt ps = some poms →
        new_goal_submit app nm df ls ps ss es td de = some app2 →
        nm ≠ "" ∧
        app2.data.goals = app.data.goals ++
          [{ name := nm, difficulty := df, levels := levels, progress := 0,
             pomodoros_per_level := poms, current_pomodoros := 0,
             start := if ss = "" then td else ss,
             end_ := if es = "" then de else es }] ∧
        app2.active_goal_index = app.active_goal_index ∧
        app2.data.pomodoro_sessions = app.data.pomodoro_sessions) := by
  constructor
  · intro app nm df ls ps ss es td de
    cases hls : pyInt ls with
    | none => simp [new_goal_submit, hls]
    | some levels =>
      cases hps : pyInt ps with
      | none => simp [new_goal_submit, hls, hps]
      | some poms =>
        by_cases hn : nm = "" <;> simp [new_goal_submit, hls, hps, hn]
  · intro app app2 nm df ls ps ss es td de levels poms hls hps hsub
    simp only [new_goal_submit, hls, hps] at hsub
    by_cases hn : nm = ""
    · rw [if_pos hn] at hsub
      cases hsub
    · rw [if_neg hn] at hsub
      injection hsub with hsub
      rw [← hsub]
      exact ⟨hn, rfl, rfl, rfl⟩

/-- C6 witness: creation evaluated on concrete valid and invalid inputs. -/
theorem C6_create_validation_witness :
    (new_goal_submit app0 "" "Easy" "5" "4" "s" "e" "t" "d" = none ↔
       pyInt "5" = none ∨ pyInt "4" = none ∨ ("" : String) = "") ∧
    ("X" : String) ≠ "" ∧
    ({ data := { goals := [goalX], pomodoro_sessions := 0 },
       active_goal_index := none } : FlowCatApp).data.goals =
      app0.data.goals ++
        [{ name := "X", difficulty := "Easy", levels := 5, progress := 0,
           pomodoros_per_level := 4, current_pomodoros := 0,
           start := if "2024-01-01" = "" then "t" else "2024-01-01",
           end_ := if "2024-12-31" = "" then "d" else "2024-12-31" }] ∧
    ({ data := { goals := [goalX], pomodoro_sessions := 0 },
       active_goal_index := none } : FlowCatApp).active_goal_index =
      app0.active_goal_index ∧
    ({ data := { goals := [goalX], pomodoro_sessions := 0 },
       active_goal_index := none } : FlowCatApp).data.pomodoro_sessions =
      app0.data.pomodoro_sessions :=
  ⟨C6_create_validation.1 app0 "" "Easy" "5" "4" "s" "e" "t" "d",
   C6_create_validation.2 app0
     { data := { goals := [goalX], pomodoro_sessions := 0 },
       active_goal_index := none }
     "X" "Easy" "5" "4" "2024-01-01" "2024-12-31" "t" "d" 5 4
     (by decide) (by decide) (by decide)⟩

end FlowCat
